import Mathlib

/-!
Shallow embedding of the `session-lifecycle` library (`src/index.ts`).

Timestamps are `Int` (JavaScript `Date.now()` epoch milliseconds; `Int`
keeps JS subtraction semantics faithful, including negative results).
The two platform timers (`setInterval` heartbeat, `setTimeout` inactivity)
are embedded as optional deadlines on the machine state; a fuel-bounded
scheduler fires due timers in deadline order, breaking ties in favour of
the timer whose task was scheduled first (the inactivity timeout in the
scenario below), matching the ordering guarantee of the HTML
"run steps after a timeout" algorithm.
-/

namespace SessionLife

/-- `SessionState` enum from `index.ts`. -/
inductive SessionState
  | inactive
  | active
  | paused
deriving DecidableEq, Repr

/-- `SessionStartType`: `'init' | 'active'`. -/
inductive StartType
  | init
  | active
deriving DecidableEq, Repr

/-- Resolved configuration (`Required<SessionLifecycleConfig>`). -/
structure Config where
  heartbeatInterval : Int
  inactivityTimeout : Int
  debug : Bool
deriving DecidableEq, Repr

/-- Externally visible event payloads. -/
inductive Event
  | start (type : StartType) (timestamp : Int)
  | endEvent (duration : Int) (total_duration : Int) (timestamp : Int)
  | life (duration : Int) (total_duration : Int) (timestamp : Int)
deriving DecidableEq, Repr

/-- The mutable fields of a `SessionLifecycle` instance, with the two
timers represented by the absolute time at which they would next fire
(`none` = timer not armed). -/
structure Machine where
  config : Config
  state : SessionState
  sessionStartTime : Int
  lastActivityTime : Int
  lastHeartbeatTime : Int
  lastEventTime : Int
  pauseStartTime : Int
  heartbeatDeadline : Option Int
  inactivityDeadline : Option Int
  isMobile : Bool
deriving DecidableEq, Repr

/-- `stopHeartbeat`: clearInterval. -/
def stopHeartbeat (m : Machine) : Machine :=
  { m with heartbeatDeadline := none }

/-- `stopInactivityTimer`: clearTimeout. -/
def stopInactivityTimer (m : Machine) : Machine :=
  { m with inactivityDeadline := none }

/-- `startHeartbeat`: stop any running interval, then arm a fresh
`setInterval` whose first tick is `heartbeatInterval` from now. -/
def startHeartbeat (m : Machine) (now : Int) : Machine :=
  { stopHeartbeat m with heartbeatDeadline := some (now + m.config.heartbeatInterval) }

/-- `resetInactivityTimer`: stop any pending timeout, then arm a fresh
`setTimeout` for `inactivityTimeout` from now. -/
def resetInactivityTimer (m : Machine) (now : Int) : Machine :=
  { stopInactivityTimer m with inactivityDeadline := some (now + m.config.inactivityTimeout) }

/-- `startSession(type)`. -/
def startSession (m : Machine) (type : StartType) (now : Int) : Machine × List Event :=
  if m.state = .active then (m, [])
  else
    let m := { m with
      state := .active
      sessionStartTime := now
      lastActivityTime := now
      lastHeartbeatTime := now
      lastEventTime := now }
    let m := startHeartbeat m now
    let m := resetInactivityTimer m now
    (m, [.start type now])

/-- `endSession()`. -/
def endSession (m : Machine) (now : Int) : Machine × List Event :=
  if m.state = .inactive then (m, [])
  else
    let intervalDuration := if m.lastEventTime > 0 then now - m.lastEventTime else 0
    let totalDuration := if m.sessionStartTime > 0 then now - m.sessionStartTime else 0
    let m := { m with state := .inactive }
    let m := stopHeartbeat m
    let m := stopInactivityTimer m
    ({ m with lastEventTime := now }, [.endEvent intervalDuration totalDuration now])

/-- `pauseSession()`. -/
def pauseSession (m : Machine) (now : Int) : Machine × List Event :=
  if m.state ≠ .active then (m, [])
  else
    let intervalDuration := if m.lastEventTime > 0 then now - m.lastEventTime else 0
    let totalDuration := if m.sessionStartTime > 0 then now - m.sessionStartTime else 0
    let m := { m with state := .paused, pauseStartTime := now }
    let m := stopHeartbeat m
    let m := stopInactivityTimer m
    ({ m with lastEventTime := now }, [.endEvent intervalDuration totalDuration now])

/-- `resumeSession()`. -/
def resumeSession (m : Machine) (now : Int) : Machine × List Event :=
  if m.state ≠ .paused then (m, [])
  else
    let pauseDuration := if m.pauseStartTime > 0 then now - m.pauseStartTime else 0
    let resumeThreshold := m.config.heartbeatInterval
    if pauseDuration > resumeThreshold then
      startSession m .active now
    else
      if m.isMobile then
        ({ m with state := .inactive }, [])
      else
        let m := { m with state := .active }
        let m := startHeartbeat m now
        let m := resetInactivityTimer m now
        ({ m with lastEventTime := now }, [.start .active now])

/-- `onUserActivity()`; `pageVisible` stands for `!document.hidden`. -/
def onUserActivity (m : Machine) (now : Int) (pageVisible : Bool) : Machine × List Event :=
  let m := { m with lastActivityTime := now, lastEventTime := now }
  if m.state = .inactive ∧ pageVisible = true then
    startSession m .active now
  else if m.state = .active then
    (resetInactivityTimer m now, [])
  else
    (m, [])

/-- The body of the `setInterval` callback in `startHeartbeat`.
`setInterval` re-arms the next tick unconditionally; the event is only
emitted when the guard `state === ACTIVE && sessionStartTime > 0` holds. -/
def heartbeatTick (m : Machine) (now : Int) : Machine × List Event :=
  let m2 := { m with heartbeatDeadline := some (now + m.config.heartbeatInterval) }
  if m.state = .active ∧ m.sessionStartTime > 0 then
    let heartbeatDuration := now - m.lastHeartbeatTime
    let totalDuration := now - m.sessionStartTime
    ({ m2 with lastHeartbeatTime := now, lastEventTime := now },
      [.life heartbeatDuration totalDuration now])
  else
    (m2, [])

/-- The `setTimeout` callback in `resetInactivityTimer`: the one-shot
timer is consumed, then `endSession` runs. -/
def inactivityFire (m : Machine) (now : Int) : Machine × List Event :=
  endSession { m with inactivityDeadline := none } now

/-- `destroy()`: ends the session only when `state === ACTIVE`, then
stops both timers (callback lists are cleared in the registry model). -/
def destroy (m : Machine) (now : Int) : Machine × List Event :=
  let r := if m.state = .active then endSession m now else (m, [])
  (stopInactivityTimer (stopHeartbeat r.1), r.2)

/-- The earliest due timer: `true` tags the inactivity timeout. On a tie
the inactivity timeout runs first (its task was scheduled no later than
the colliding heartbeat repetition). -/
def nextTimer (m : Machine) : Option (Bool × Int) :=
  match m.inactivityDeadline, m.heartbeatDeadline with
  | some i, some h => if i ≤ h then some (true, i) else some (false, h)
  | some i, none => some (true, i)
  | none, some h => some (false, h)
  | none, none => none

/-- Advance virtual time to `horizon` with no external signals, firing
every timer that comes due, earliest first; `fuel` bounds the number of
firings. -/
def advance : Nat → Machine → Int → Machine × List Event
  | 0, m, _ => (m, [])
  | fuel + 1, m, horizon =>
    match nextTimer m with
    | none => (m, [])
    | some (isInact, t) =>
      if t ≤ horizon then
        let r := if isInact then inactivityFire m t else heartbeatTick m t
        let r2 := advance fuel r.1 horizon
        (r2.1, r.2 ++ r2.2)
      else (m, [])

/-- A freshly constructed, not yet started machine: all timestamps `0`,
state `INACTIVE`, no timer armed. -/
def initialMachine (cfg : Config) (isMobile : Bool) : Machine :=
  { config := cfg
    state := .inactive
    sessionStartTime := 0
    lastActivityTime := 0
    lastHeartbeatTime := 0
    lastEventTime := 0
    pauseStartTime := 0
    heartbeatDeadline := none
    inactivityDeadline := none
    isMobile := isMobile }

/-- The configuration of the §8 scenario. -/
def scenarioConfig : Config :=
  { heartbeatInterval := 1000, inactivityTimeout := 5000, debug := false }

/-- The §8 scenario, started at absolute time `t0` (the spec's `t=0`):
one `activity` signal on a visible page, then virtual time runs to
`t0 + 6000` with no further signals. Returns the emitted event trace. -/
def scenarioTrace (t0 : Int) : List Event :=
  let r1 := onUserActivity (initialMachine scenarioConfig false) t0 true
  let r2 := advance 16 r1.1 (t0 + 6000)
  r1.2 ++ r2.2

/-- Machine right after the `activity` signal at `t0` in the scenario. -/
def scenarioM1 (t0 : Int) : Machine :=
  { config := scenarioConfig
    state := .active
    sessionStartTime := t0
    lastActivityTime := t0
    lastHeartbeatTime := t0
    lastEventTime := t0
    pauseStartTime := 0
    heartbeatDeadline := some (t0 + 1000)
    inactivityDeadline := some (t0 + 5000)
    isMobile := false }

/-- Machine after the `k`-th heartbeat tick of the scenario (`1 ≤ k ≤ 4`). -/
def scenarioHb (t0 : Int) (k : Int) : Machine :=
  { scenarioM1 t0 with
    lastHeartbeatTime := t0 + 1000 * k
    lastEventTime := t0 + 1000 * k
    heartbeatDeadline := some (t0 + 1000 * k + 1000) }

/-- Machine after the inactivity timeout ends the scenario session. -/
def scenarioEnd (t0 : Int) : Machine :=
  { scenarioM1 t0 with
    state := .inactive
    lastHeartbeatTime := t0 + 4000
    lastEventTime := t0 + 5000
    heartbeatDeadline := none
    inactivityDeadline := none }

/-- A registered handler, abstracted to an identifier plus whether its
body throws when invoked. -/
structure HandlerSpec where
  id : Nat
  throws : Bool
deriving DecidableEq, Repr

/-- Outcome of invoking one handler body. -/
inductive CallResult
  | ok
  | threw
deriving DecidableEq, Repr

/-- Invoke a handler body. -/
def invoke (h : HandlerSpec) : CallResult :=
  if h.throws then .threw else .ok

/-- The `forEach` loop shared by `triggerSessionStart` and
`triggerSessionLife`: each call is wrapped in `try { … } catch { log }`
when `catchErrors` is set; an uncaught throw would abort the loop. -/
def runHandlers (catchErrors : Bool) : List HandlerSpec → List (Nat × CallResult)
  | [] => []
  | h :: t =>
    let r := invoke h
    if r = .threw ∧ catchErrors = false then [(h.id, r)]
    else (h.id, r) :: runHandlers catchErrors t

/-- `triggerSessionStart`: fires every start callback with try/catch
isolation, synchronously in registration order. -/
def triggerSessionStart (hs : List HandlerSpec) : List (Nat × CallResult) :=
  runHandlers true hs

/-- `triggerSessionLife`: same isolation policy as start. -/
def triggerSessionLife (hs : List HandlerSpec) : List (Nat × CallResult) :=
  runHandlers true hs

/-- One observable step of the asynchronous end-event firing: a handler
invocation (scheduled via `setTimeout(…, 0)` and resolving its promise
in `finally`, throwing or not), or the resolution of the `Promise.all`
the caller awaits. -/
inductive EndStep
  | invoked (id : Nat) (r : CallResult)
  | allResolved
deriving DecidableEq, Repr

/-- The end-firing loop: `pending` counts promises not yet settled;
`Promise.all` resolves exactly when it reaches zero. -/
def endLoop : List HandlerSpec → Nat → List EndStep
  | [], 0 => [.allResolved]
  | [], _ + 1 => []
  | h :: t, pending => .invoked h.id (invoke h) :: endLoop t (pending - 1)

/-- `triggerSessionEnd`: schedules every registered end handler and its
awaitable settles once all of them have run. -/
def triggerSessionEnd (hs : List HandlerSpec) : List EndStep :=
  endLoop hs hs.length

/-- The three callback lists of an instance, plus the deferred one-shot
init flag (`initTimer` armed by `scheduleInitialization`). -/
structure Registry where
  startCallbacks : List Nat
  endCallbacks : List Nat
  lifeCallbacks : List Nat
  initTimerArmed : Bool
deriving DecidableEq, Repr

/-- A value passed to a registration method: a function, or any
non-callable JavaScript value. -/
inductive CallbackArg
  | fn (id : Nat)
  | notCallable
deriving DecidableEq, Repr

/-- The registration-time error
(`new Error('Callback must be a function')`, the spec's `InvalidHandler`). -/
inductive RegError
  | invalidHandler
deriving DecidableEq, Repr

/-- `on_session_start` from `getMethods`: the `typeof callback !== 'function'`
check throws before the push, so on failure the instance is unchanged. -/
def on_session_start (r : Registry) (arg : CallbackArg) : Registry × Option RegError :=
  match arg with
  | .notCallable => (r, some .invalidHandler)
  | .fn id =>
    ({ r with startCallbacks := r.startCallbacks ++ [id], initTimerArmed := true }, none)

/-- `on_session_end` from `getMethods`. -/
def on_session_end (r : Registry) (arg : CallbackArg) : Registry × Option RegError :=
  match arg with
  | .notCallable => (r, some .invalidHandler)
  | .fn id =>
    ({ r with endCallbacks := r.endCallbacks ++ [id], initTimerArmed := true }, none)

/-- `on_session_life` from `getMethods`. -/
def on_session_life (r : Registry) (arg : CallbackArg) : Registry × Option RegError :=
  match arg with
  | .notCallable => (r, some .invalidHandler)
  | .fn id =>
    ({ r with lifeCallbacks := r.lifeCallbacks ++ [id], initTimerArmed := true }, none)

/-- Observable steps of the awaited factory path `createSessionLifecycle`. -/
inductive FactoryStep
  | oldEndHandlerRun (id : Nat)
  | oldDestroyCompleted
  | constructed
  | newStartObserved (id : Nat)
deriving DecidableEq, Repr

/-- `await instance.destroy()` for the previous instance: when it is
`ACTIVE`, `endSession` fires the end event and every registered end
handler (throwing or not) runs and settles before the await returns. -/
def destroySteps (m : Machine) (ends : List HandlerSpec) : List FactoryStep :=
  (if m.state = .active then ends.map (fun h => FactoryStep.oldEndHandlerRun h.id) else [])
    ++ [.oldDestroyCompleted]

/-- The awaited factory path: tear down the existing instance (if any)
to completion, then construct the new one; any `StartEvent` of the new
instance is observed strictly afterwards (deferred init tick). -/
def createSessionLifecycleSteps (old : Option (Machine × List HandlerSpec))
    (newStartIds : List Nat) : List FactoryStep :=
  (match old with
   | none => []
   | some p => destroySteps p.1 p.2)
    ++ [.constructed] ++ newStartIds.map FactoryStep.newStartObserved

/-- `SessionLifecycleConfig`: every field optional. -/
structure ConfigInput where
  heartbeatInterval : Option Int
  inactivityTimeout : Option Int
  debug : Option Bool
deriving DecidableEq, Repr

/-- The device-dependent default table in the constructor; both branches
carry the same numbers (30000 / 120000 / false). -/
def mobileOptimizedDefaults (isMobile : Bool) : Config :=
  if isMobile then
    { heartbeatInterval := 30000, inactivityTimeout := 120000, debug := false }
  else
    { heartbeatInterval := 30000, inactivityTimeout := 120000, debug := false }

/-- The constructor's config resolution
`this.config = { ...mobileOptimizedDefaults, ...config }`: object spread
keeps each explicitly supplied field verbatim (no validation, no failure
path) and falls back to the default only for fields absent from the
supplied object. -/
def mkConfig (input : ConfigInput) (isMobile : Bool) : Config :=
  let d := mobileOptimizedDefaults isMobile
  { heartbeatInterval := input.heartbeatInterval.getD d.heartbeatInterval
    inactivityTimeout := input.inactivityTimeout.getD d.inactivityTimeout
    debug := input.debug.getD d.debug }

/-- A sample configuration for concrete witnesses. -/
def sampleConfig : Config :=
  { heartbeatInterval := 1000, inactivityTimeout := 5000, debug := false }

/-- A concrete machine in state `Paused`. -/
def pausedMachine : Machine :=
  { config := sampleConfig
    state := .paused
    sessionStartTime := 10
    lastActivityTime := 20
    lastHeartbeatTime := 30
    lastEventTime := 40
    pauseStartTime := 50
    heartbeatDeadline := none
    inactivityDeadline := none
    isMobile := false }

/-- A concrete machine in state `Active`. -/
def activeMachine : Machine :=
  { config := sampleConfig
    state := .active
    sessionStartTime := 10
    lastActivityTime := 20
    lastHeartbeatTime := 30
    lastEventTime := 40
    pauseStartTime := 0
    heartbeatDeadline := some 1030
    inactivityDeadline := some 5020
    isMobile := false }

end SessionLife

namespace SessionLife

/-- An armed scheduler with no due timer does nothing. -/
theorem advance_idle (fuel : Nat) (m : Machine) (horizon : Int)
    (hn : nextTimer m = none) : advance fuel m horizon = (m, []) := by
  cases fuel <;> simp [advance, hn]

/-- Unfold one scheduler firing, given the behaviour of the fired timer
and of the remaining run. -/
theorem advance_fire (isInact : Bool) (fuel : Nat) (m m' m'' : Machine)
    (horizon t : Int) (evs evs' : List Event)
    (hn : nextTimer m = some (isInact, t)) (ht : t ≤ horizon)
    (hstep : (if isInact then inactivityFire m t else heartbeatTick m t) = (m', evs))
    (hrec : advance fuel m' horizon = (m'', evs')) :
    advance (fuel + 1) m horizon = (m'', evs ++ evs') := by
  simp [advance, hn, ht, hstep, hrec]

/-- Claim C1 (counterexample to the claim as stated): at the claim's own
start time `t=0`, the literal run emits no `HeartbeatEvent` at all (the
heartbeat guard `sessionStartTime > 0` fails) and the `EndEvent` carries
`duration = 0`, `total_duration = 0` — not `{5000, 6000}`. -/
theorem c1_scenario_counterexample :
    scenarioTrace 0 = [Event.start .active 0, Event.endEvent 0 0 5000] ∧
    Event.life 1000 1000 1000 ∉ scenarioTrace 0 ∧
    Event.endEvent 5000 6000 5000 ∉ scenarioTrace 0 := by
  decide

/-- Claim C1 (amended): starting the scenario at any realistic epoch time
`t0 > 0`, the `activity` signal emits `StartEvent{kind: active, timestamp: t0}`,
heartbeats fire at `t0+1000 … t0+4000` (the first with
`duration = total_duration = 1000`), and exactly one `EndEvent` fires, at
`t0 + 5000` with `duration = 1000` and `total_duration = 5000`: the
inactivity timer stays anchored at the time it was armed (session start),
not at `lastEventTime + inactivityTimeout` — heartbeats do not re-arm it. -/

theorem c1_scenario_trace (t0 : Int) (h : 0 < t0) :
    scenarioTrace t0 =
      [Event.start .active t0,
       Event.life 1000 1000 (t0 + 1000), Event.life 1000 2000 (t0 + 2000),
       Event.life 1000 3000 (t0 + 3000), Event.life 1000 4000 (t0 + 4000),
       Event.endEvent 1000 5000 (t0 + 5000)] := by
  have hM1 : onUserActivity (initialMachine scenarioConfig false) t0 true =
      (scenarioM1 t0, [Event.start .active t0]) := by
    simp [onUserActivity, initialMachine, scenarioConfig, startSession, startHeartbeat,
      resetInactivityTimer, stopHeartbeat, stopInactivityTimer, scenarioM1]
  have n1 : nextTimer (scenarioM1 t0) = some (false, t0 + 1000) := by
    have hc : ¬ (t0 + 5000 ≤ t0 + 1000) := by omega
    simp [nextTimer, scenarioM1, hc]
  have t1 : heartbeatTick (scenarioM1 t0) (t0 + 1000) =
      (scenarioHb t0 1, [Event.life 1000 1000 (t0 + 1000)]) := by
    simp [heartbeatTick, scenarioM1, scenarioHb, scenarioConfig, h, Prod.ext_iff]
    all_goals omega
  have n2 : nextTimer (scenarioHb t0 1) = some (false, t0 + 2000) := by
    have hc : ¬ (t0 + 5000 ≤ t0 + 1000 + 1000) := by omega
    simp [nextTimer, scenarioHb, scenarioM1, hc, Prod.ext_iff]
    all_goals omega
  have t2 : heartbeatTick (scenarioHb t0 1) (t0 + 2000) =
      (scenarioHb t0 2, [Event.life 1000 2000 (t0 + 2000)]) := by
    simp [heartbeatTick, scenarioM1, scenarioHb, scenarioConfig, h, Prod.ext_iff]
    all_goals omega
  have n3 : nextTimer (scenarioHb t0 2) = some (false, t0 + 3000) := by
    have hc : ¬ (t0 + 5000 ≤ t0 + 2000 + 1000) := by omega
    simp [nextTimer, scenarioHb, scenarioM1, hc, Prod.ext_iff]
    all_goals omega
  have t3 : heartbeatTick (scenarioHb t0 2) (t0 + 3000) =
      (scenarioHb t0 3, [Event.life 1000 3000 (t0 + 3000)]) := by
    simp [heartbeatTick, scenarioM1, scenarioHb, scenarioConfig, h, Prod.ext_iff]
    all_goals omega
  have n4 : nextTimer (scenarioHb t0 3) = some (false, t0 + 4000) := by
    have hc : ¬ (t0 + 5000 ≤ t0 + 3000 + 1000) := by omega
    simp [nextTimer, scenarioHb, scenarioM1, hc, Prod.ext_iff]
    all_goals omega
  have t4 : heartbeatTick (scenarioHb t0 3) (t0 + 4000) =
      (scenarioHb t0 4, [Event.life 1000 4000 (t0 + 4000)]) := by
    simp [heartbeatTick, scenarioM1, scenarioHb, scenarioConfig, h, Prod.ext_iff]
    all_goals omega
  have n5 : nextTimer (scenarioHb t0 4) = some (true, t0 + 5000) := by
    have hc : t0 + 5000 ≤ t0 + 4000 + 1000 := by omega
    simp [nextTimer, scenarioHb, scenarioM1, hc, Prod.ext_iff]
  have f5 : inactivityFire (scenarioHb t0 4) (t0 + 5000) =
      (scenarioEnd t0, [Event.endEvent 1000 5000 (t0 + 5000)]) := by
    simp [inactivityFire, endSession, stopHeartbeat, stopInactivityTimer, scenarioHb,
      scenarioM1, scenarioEnd, scenarioConfig, h, Prod.ext_iff]
    all_goals omega
  have n6 : nextTimer (scenarioEnd t0) = none := by
    simp [nextTimer, scenarioEnd, scenarioM1]
  have A6 : advance 11 (scenarioEnd t0) (t0 + 6000) = (scenarioEnd t0, []) :=
    advance_idle 11 _ _ n6
  have A5 : advance 12 (scenarioHb t0 4) (t0 + 6000) =
      (scenarioEnd t0, [Event.endEvent 1000 5000 (t0 + 5000)]) :=
    advance_fire true 11 _ _ _ _ _ _ _ n5 (by omega) f5 A6
  have A4 : advance 13 (scenarioHb t0 3) (t0 + 6000) =
      (scenarioEnd t0, [Event.life 1000 4000 (t0 + 4000), Event.endEvent 1000 5000 (t0 + 5000)]) :=
    advance_fire false 12 _ _ _ _ _ _ _ n4 (by omega) t4 A5
  have A3 : advance 14 (scenarioHb t0 2) (t0 + 6000) =
      (scenarioEnd t0, [Event.life 1000 3000 (t0 + 3000), Event.life 1000 4000 (t0 + 4000),
        Event.endEvent 1000 5000 (t0 + 5000)]) :=
    advance_fire false 13 _ _ _ _ _ _ _ n3 (by omega) t3 A4
  have A2 : advance 15 (scenarioHb t0 1) (t0 + 6000) =
      (scenarioEnd t0, [Event.life 1000 2000 (t0 + 2000), Event.life 1000 3000 (t0 + 3000),
        Event.life 1000 4000 (t0 + 4000), Event.endEvent 1000 5000 (t0 + 5000)]) :=
    advance_fire false 14 _ _ _ _ _ _ _ n2 (by omega) t2 A3
  have A1 : advance 16 (scenarioM1 t0) (t0 + 6000) =
      (scenarioEnd t0, [Event.life 1000 1000 (t0 + 1000), Event.life 1000 2000 (t0 + 2000),
        Event.life 1000 3000 (t0 + 3000), Event.life 1000 4000 (t0 + 4000),
        Event.endEvent 1000 5000 (t0 + 5000)]) :=
    advance_fire false 15 _ _ _ _ _ _ _ n1 (by omega) t1 A2
  simp only [scenarioTrace, hM1, A1]
  simp

/-- Witness for `c1_scenario_trace` at `t0 = 1`. -/
theorem c1_scenario_trace_witness :
    (0 : Int) < 1 ∧
      scenarioTrace 1 =
        [Event.start .active 1,
         Event.life 1000 1000 1001, Event.life 1000 2000 2001,
         Event.life 1000 3000 3001, Event.life 1000 4000 4001,
         Event.endEvent 1000 5000 5001] :=
  ⟨by decide, c1_scenario_trace 1 (by decide)⟩

end SessionLife

namespace SessionLife

/-- Claim C2 (confirmed): a `visibilityVisible` signal in state `Paused`
starts a fresh session (`sessionStartTime := now`, one
`StartEvent{kind: active}`) exactly when
`pauseDuration = now - pauseStartTime` strictly exceeds
`heartbeatInterval`; when `pauseDuration` equals `heartbeatInterval`
(or is smaller) the resume-in-place branch runs and the existing
`sessionStartTime` is kept (on both the desktop and the mobile policy). -/
theorem c2_resume_boundary (m : Machine) (now : Int)
    (hs : m.state = .paused) (hp : 0 < m.pauseStartTime) :
    (now - m.pauseStartTime > m.config.heartbeatInterval →
      (resumeSession m now).1.sessionStartTime = now ∧
      (resumeSession m now).2 = [Event.start .active now]) ∧
    (now - m.pauseStartTime ≤ m.config.heartbeatInterval →
      (resumeSession m now).1.sessionStartTime = m.sessionStartTime) := by
  have hne : ¬ (m.state = SessionState.active) := by rw [hs]; simp
  constructor
  · intro hgt
    simp [resumeSession, hs, hp, hgt, startSession, hne, startHeartbeat,
      resetInactivityTimer, stopHeartbeat, stopInactivityTimer]
  · intro hle
    have hng : ¬ (now - m.pauseStartTime > m.config.heartbeatInterval) := by omega
    cases hm : m.isMobile <;>
      simp [resumeSession, hs, hp, hng, hm, startHeartbeat, resetInactivityTimer,
        stopHeartbeat, stopInactivityTimer]

/-- Witness for `c2_resume_boundary` on a concrete paused machine at
`now = 2000` (pause lasted 1950 ms > heartbeatInterval 1000 ms). -/
theorem c2_resume_boundary_witness :
    (pausedMachine.state = .paused ∧ (0:Int) < pausedMachine.pauseStartTime) ∧
    ((2000 : Int) - pausedMachine.pauseStartTime > pausedMachine.config.heartbeatInterval →
      (resumeSession pausedMachine 2000).1.sessionStartTime = 2000 ∧
      (resumeSession pausedMachine 2000).2 = [Event.start .active 2000]) ∧
    ((2000 : Int) - pausedMachine.pauseStartTime ≤ pausedMachine.config.heartbeatInterval →
      (resumeSession pausedMachine 2000).1.sessionStartTime = pausedMachine.sessionStartTime) :=
  ⟨⟨rfl, by decide⟩, c2_resume_boundary pausedMachine 2000 rfl (by decide)⟩

/-- Claim C3 (counterexample to the claim as stated): `destroy` on a
`Paused` machine leaves the state `Paused` — `destroy` only routes
through `endSession` when the state is `ACTIVE`, and never otherwise
assigns `state`. -/
theorem c3_destroy_counterexample :
    (destroy pausedMachine 100).1.state = .paused ∧
    ¬ (destroy pausedMachine 100).1.state = .inactive := by
  decide

/-- Claim C3 (amended): after `destroy()` the state is `Inactive` when
the machine was `Inactive` or `Active` (from `Active` it fires exactly
one final `EndEvent` before completing), but a `Paused` machine keeps
state `Paused` — only its timers and callbacks are cleared. -/
theorem c3_destroy_state (m : Machine) (now : Int) :
    (destroy m now).1.state
        = (if m.state = .paused then SessionState.paused else .inactive) ∧
    (destroy m now).2
        = (if m.state = .active then
            [Event.endEvent (if m.lastEventTime > 0 then now - m.lastEventTime else 0)
              (if m.sessionStartTime > 0 then now - m.sessionStartTime else 0) now]
          else []) := by
  cases hst : m.state <;>
    simp [destroy, endSession, stopHeartbeat, stopInactivityTimer, hst]

/-- Claim C4 (counterexample to the claim as stated): an `activity`
signal while `Paused` does mutate the record — `onUserActivity` writes
`lastActivityTime` and `lastEventTime` before inspecting the state. -/
theorem c4_activity_counterexample :
    (onUserActivity pausedMachine 100 true).1.lastEventTime ≠ pausedMachine.lastEventTime ∧
    (onUserActivity pausedMachine 100 true).1.lastActivityTime
      ≠ pausedMachine.lastActivityTime := by
  decide

/-- Claim C4 (amended): an `activity` signal while `Paused` keeps the
state `Paused`, emits no event, changes no timer, and leaves
`sessionStartTime`, `lastHeartbeatTime` and `pauseStartTime` unchanged —
but it does update `lastActivityTime` and `lastEventTime` to `now`. -/
theorem c4_activity_paused (m : Machine) (now : Int) (v : Bool) (hs : m.state = .paused) :
    (onUserActivity m now v).1.state = .paused ∧
    (onUserActivity m now v).2 = [] ∧
    (onUserActivity m now v).1.heartbeatDeadline = m.heartbeatDeadline ∧
    (onUserActivity m now v).1.inactivityDeadline = m.inactivityDeadline ∧
    (onUserActivity m now v).1.sessionStartTime = m.sessionStartTime ∧
    (onUserActivity m now v).1.lastHeartbeatTime = m.lastHeartbeatTime ∧
    (onUserActivity m now v).1.pauseStartTime = m.pauseStartTime ∧
    (onUserActivity m now v).1.lastActivityTime = now ∧
    (onUserActivity m now v).1.lastEventTime = now := by
  simp [onUserActivity, hs]

/-- Witness for `c4_activity_paused` on a concrete paused machine. -/
theorem c4_activity_paused_witness :
    pausedMachine.state = .paused ∧
    (onUserActivity pausedMachine 100 true).1.state = .paused :=
  ⟨rfl, (c4_activity_paused pausedMachine 100 true rfl).1⟩

/-- Claim C5 (confirmed): both end-event emitters (`endSession` and,
from `Active`, `pauseSession`) produce a single `EndEvent` whose
`duration ≤ total_duration` under the record invariants
`0 < sessionStartTime ≤ lastEventTime ≤ now` (in particular whenever no
heartbeat or activity reset occurred, i.e. `lastEventTime = sessionStartTime`),
with `duration = total_duration` exactly when `lastEventTime` still
equals `sessionStartTime` at end time. -/
theorem c5_end_duration (m : Machine) (now : Int)
    (hact : ¬ (m.state = .inactive)) (h1 : 0 < m.sessionStartTime)
    (h2 : m.sessionStartTime ≤ m.lastEventTime) (h3 : m.lastEventTime ≤ now) :
    (∃ d t, (endSession m now).2 = [Event.endEvent d t now] ∧ d ≤ t ∧
      (d = t ↔ m.lastEventTime = m.sessionStartTime)) ∧
    (m.state = .active →
      ∃ d t, (pauseSession m now).2 = [Event.endEvent d t now] ∧ d ≤ t ∧
        (d = t ↔ m.lastEventTime = m.sessionStartTime)) := by
  have hle : (0:Int) < m.lastEventTime := by omega
  constructor
  · refine ⟨now - m.lastEventTime, now - m.sessionStartTime, ?_, by omega,
      by constructor <;> intro <;> omega⟩
    simp [endSession, hact, hle, h1]
  · intro ha
    refine ⟨now - m.lastEventTime, now - m.sessionStartTime, ?_, by omega,
      by constructor <;> intro <;> omega⟩
    simp [pauseSession, ha, hle, h1]

/-- Witness for `c5_end_duration` on a concrete active machine at
`now = 100`. -/
theorem c5_end_duration_witness :
    (¬ (activeMachine.state = .inactive) ∧ (0:Int) < activeMachine.sessionStartTime ∧
      activeMachine.sessionStartTime ≤ activeMachine.lastEventTime ∧
      activeMachine.lastEventTime ≤ (100:Int)) ∧
    ((∃ d t, (endSession activeMachine 100).2 = [Event.endEvent d t 100] ∧ d ≤ t ∧
        (d = t ↔ activeMachine.lastEventTime = activeMachine.sessionStartTime)) ∧
      (activeMachine.state = .active →
        ∃ d t, (pauseSession activeMachine 100).2 = [Event.endEvent d t 100] ∧ d ≤ t ∧
          (d = t ↔ activeMachine.lastEventTime = activeMachine.sessionStartTime))) :=
  ⟨⟨by decide, by decide, by decide, by decide⟩,
    c5_end_duration activeMachine 100 (by decide) (by decide) (by decide) (by decide)⟩

/-- The try/catch wrapper makes the firing loop total: with isolation
on, every handler is called in order, throwing or not. -/
theorem runHandlers_catch_all (hs : List HandlerSpec) :
    runHandlers true hs = hs.map (fun h => (h.id, invoke h)) := by
  induction hs with
  | nil => simp [runHandlers]
  | cons h t ih => simp [runHandlers, ih]

/-- The end-firing loop invokes every scheduled handler and the
`Promise.all` resolution is the single final step. -/
theorem endLoop_complete (hs : List HandlerSpec) :
    endLoop hs hs.length =
      hs.map (fun h => EndStep.invoked h.id (invoke h)) ++ [EndStep.allResolved] := by
  induction hs with
  | nil => simp [endLoop]
  | cons h t ih => simp [endLoop, ih]

/-- Claim C6 (confirmed): firing start and heartbeat events invokes
every registered handler in registration order, a throwing handler
being caught without suppressing later ones; firing an end event settles
its awaitable in exactly one final `allResolved` step, after every
end handler — including throwing ones — has been invoked. -/
theorem c6_handler_isolation (hs : List HandlerSpec) :
    (triggerSessionStart hs).map Prod.fst = hs.map HandlerSpec.id ∧
    (triggerSessionLife hs).map Prod.fst = hs.map HandlerSpec.id ∧
    triggerSessionEnd hs =
      hs.map (fun h => EndStep.invoked h.id (invoke h)) ++ [EndStep.allResolved] := by
  refine ⟨?_, ?_, ?_⟩
  · simp [triggerSessionStart, runHandlers_catch_all]
  · simp [triggerSessionLife, runHandlers_catch_all]
  · simp [triggerSessionEnd, endLoop_complete]

/-- Claim C7 (confirmed): each of `on_session_start`, `on_session_end`
and `on_session_life` rejects a non-callable argument with the
`InvalidHandler` error, leaving the registry unchanged; the failure is
fatal to that call only — a subsequent valid registration on the same
instance succeeds and appends. -/
theorem c7_registration (r : Registry) (k : Nat) :
    ((on_session_start r .notCallable).2 = some .invalidHandler ∧
      (on_session_start r .notCallable).1 = r ∧
      (on_session_start (on_session_start r .notCallable).1 (.fn k)).2 = none ∧
      (on_session_start (on_session_start r .notCallable).1 (.fn k)).1.startCallbacks
        = r.startCallbacks ++ [k]) ∧
    ((on_session_end r .notCallable).2 = some .invalidHandler ∧
      (on_session_end r .notCallable).1 = r ∧
      (on_session_end (on_session_end r .notCallable).1 (.fn k)).2 = none ∧
      (on_session_end (on_session_end r .notCallable).1 (.fn k)).1.endCallbacks
        = r.endCallbacks ++ [k]) ∧
    ((on_session_life r .notCallable).2 = some .invalidHandler ∧
      (on_session_life r .notCallable).1 = r ∧
      (on_session_life (on_session_life r .notCallable).1 (.fn k)).2 = none ∧
      (on_session_life (on_session_life r .notCallable).1 (.fn k)).1.lifeCallbacks
        = r.lifeCallbacks ++ [k]) := by
  simp [on_session_start, on_session_end, on_session_life]

/-- The factory's pre-construction segment contains no `constructed`
step. -/
theorem constructed_notin_destroySteps (m : Machine) (ends : List HandlerSpec) :
    FactoryStep.constructed ∉ destroySteps m ends := by
  simp [destroySteps]

/-- The factory's pre-construction segment contains no observation of a
new-instance start. -/
theorem newstart_notin_destroySteps (m : Machine) (ends : List HandlerSpec) (sid : Nat) :
    FactoryStep.newStartObserved sid ∉ destroySteps m ends := by
  simp [destroySteps]

/-- A successful indexed lookup is a member. -/
theorem mem_of_idx {α : Type} {l : List α} {i : Nat} {a : α} (h : l[i]? = some a) : a ∈ l := by
  rw [List.getElem?_eq_some] at h
  obtain ⟨hlt, he⟩ := h
  exact he ▸ List.getElem_mem hlt

/-- Claim C8 (confirmed): on the awaited `createSessionLifecycle` path
with a previous instance present, every completed end-handler run of the
old instance occurs strictly before the new instance is constructed,
which occurs strictly before any observation of the new instance's first
`StartEvent`. -/
theorem c8_create_serializes (m : Machine) (ends : List HandlerSpec) (newIds : List Nat)
    (i j k hid sid : Nat)
    (hi : (createSessionLifecycleSteps (some (m, ends)) newIds)[i]?
        = some (.oldEndHandlerRun hid))
    (hj : (createSessionLifecycleSteps (some (m, ends)) newIds)[j]? = some .constructed)
    (hk : (createSessionLifecycleSteps (some (m, ends)) newIds)[k]?
        = some (.newStartObserved sid)) :
    i < j ∧ j < k := by
  have hsteps : createSessionLifecycleSteps (some (m, ends)) newIds
      = destroySteps m ends
        ++ (FactoryStep.constructed :: newIds.map FactoryStep.newStartObserved) := by
    simp [createSessionLifecycleSteps]
  rw [hsteps] at hi hj hk
  set A := destroySteps m ends with hA
  set B := newIds.map FactoryStep.newStartObserved with hB
  have hj_eq : j = A.length := by
    rcases Nat.lt_or_ge j A.length with hlt | hge
    · exfalso
      rw [List.getElem?_append, if_pos hlt] at hj
      exact constructed_notin_destroySteps m ends (mem_of_idx hj)
    · rw [List.getElem?_append_right hge] at hj
      rcases hd : j - A.length with _ | n
      · omega
      · exfalso
        rw [hd, List.getElem?_cons_succ] at hj
        have := mem_of_idx hj
        rw [hB] at this
        simp at this
  have hi_lt : i < A.length := by
    rcases Nat.lt_or_ge i A.length with hlt | hge
    · exact hlt
    · exfalso
      rw [List.getElem?_append_right hge] at hi
      rcases hd : i - A.length with _ | n
      · rw [hd, List.getElem?_cons_zero] at hi
        simp at hi
      · rw [hd, List.getElem?_cons_succ] at hi
        have := mem_of_idx hi
        rw [hB] at this
        simp at this
  have hk_gt : A.length < k := by
    rcases Nat.lt_or_ge k A.length with hlt | hge
    · exfalso
      rw [List.getElem?_append, if_pos hlt] at hk
      exact newstart_notin_destroySteps m ends sid (mem_of_idx hk)
    · rcases hd : k - A.length with _ | n
      · exfalso
        rw [List.getElem?_append_right hge, hd, List.getElem?_cons_zero] at hk
        simp at hk
      · omega
  exact ⟨by omega, by omega⟩

/-- Witness for `c8_create_serializes`: an active old instance with one
(throwing) end handler and one new-start observation yields the trace
`[oldEndHandlerRun 1, oldDestroyCompleted, constructed, newStartObserved 2]`. -/
theorem c8_create_serializes_witness :
    ((createSessionLifecycleSteps (some (activeMachine, [⟨1, true⟩])) [2])[0]?
        = some (.oldEndHandlerRun 1) ∧
      (createSessionLifecycleSteps (some (activeMachine, [⟨1, true⟩])) [2])[2]?
        = some .constructed ∧
      (createSessionLifecycleSteps (some (activeMachine, [⟨1, true⟩])) [2])[3]?
        = some (.newStartObserved 2)) ∧
    ((0:Nat) < 2 ∧ (2:Nat) < 3) :=
  ⟨⟨by decide, by decide, by decide⟩,
    c8_create_serializes activeMachine [⟨1, true⟩] [2] 0 2 3 1 2
      (by decide) (by decide) (by decide)⟩

/-- Claim C9 (confirmed): an `activity` signal in state `Inactive` on a
hidden page starts no session and emits no `StartEvent` — the state stays
`Inactive` and neither timer is armed — although the activity is
recorded in `lastActivityTime` and `lastEventTime`. -/
theorem c9_activity_inactive_hidden (m : Machine) (now : Int) (hs : m.state = .inactive) :
    (onUserActivity m now false).1.state = .inactive ∧
    (onUserActivity m now false).2 = [] ∧
    (onUserActivity m now false).1.lastActivityTime = now ∧
    (onUserActivity m now false).1.lastEventTime = now ∧
    (onUserActivity m now false).1.heartbeatDeadline = m.heartbeatDeadline ∧
    (onUserActivity m now false).1.inactivityDeadline = m.inactivityDeadline ∧
    (onUserActivity m now false).1.sessionStartTime = m.sessionStartTime := by
  simp [onUserActivity, hs]

/-- Witness for `c9_activity_inactive_hidden` on a fresh machine. -/
theorem c9_activity_inactive_hidden_witness :
    (initialMachine sampleConfig false).state = .inactive ∧
    (onUserActivity (initialMachine sampleConfig false) 100 false).1.state = .inactive ∧
    (onUserActivity (initialMachine sampleConfig false) 100 false).2 = [] :=
  ⟨rfl, (c9_activity_inactive_hidden (initialMachine sampleConfig false) 100 rfl).1,
    (c9_activity_inactive_hidden (initialMachine sampleConfig false) 100 rfl).2.1⟩

/-- Claim C10 (confirmed): construction is a total function with no
validation — every explicitly supplied field value, including `0` or a
negative duration, is stored verbatim, and the defaults
(30000 / 120000 / false) apply only to fields absent from the supplied
config object, on both device classes. -/
theorem c10_constructor (input : ConfigInput) (isMobile : Bool) :
    ((input.heartbeatInterval = none → (mkConfig input isMobile).heartbeatInterval = 30000) ∧
      ∀ v : Int, input.heartbeatInterval = some v →
        (mkConfig input isMobile).heartbeatInterval = v) ∧
    ((input.inactivityTimeout = none → (mkConfig input isMobile).inactivityTimeout = 120000) ∧
      ∀ v : Int, input.inactivityTimeout = some v →
        (mkConfig input isMobile).inactivityTimeout = v) ∧
    ((input.debug = none → (mkConfig input isMobile).debug = false) ∧
      ∀ b : Bool, input.debug = some b → (mkConfig input isMobile).debug = b) := by
  refine ⟨⟨?_, ?_⟩, ⟨?_, ?_⟩, ⟨?_, ?_⟩⟩ <;> intros <;>
    cases isMobile <;> simp_all [mkConfig, mobileOptimizedDefaults]

/-- Witness for `c10_constructor`: a config with a negative heartbeat
interval is accepted verbatim while the omitted timeout gets its
default. -/
theorem c10_constructor_witness :
    ((⟨some (-5), none, some true⟩ : ConfigInput).heartbeatInterval = some (-5) ∧
      (mkConfig ⟨some (-5), none, some true⟩ false).heartbeatInterval = -5) ∧
    ((⟨some (-5), none, some true⟩ : ConfigInput).inactivityTimeout = none ∧
      (mkConfig ⟨some (-5), none, some true⟩ false).inactivityTimeout = 120000) ∧
    ((⟨some (-5), none, some true⟩ : ConfigInput).debug = some true ∧
      (mkConfig ⟨some (-5), none, some true⟩ false).debug = true) :=
  ⟨⟨rfl, (c10_constructor ⟨some (-5), none, some true⟩ false).1.2 (-5) rfl⟩,
    ⟨rfl, (c10_constructor ⟨some (-5), none, some true⟩ false).2.1.1 rfl⟩,
    ⟨rfl, (c10_constructor ⟨some (-5), none, some true⟩ false).2.2.2 true rfl⟩⟩

end SessionLife
